import Mathlib

/-!
Verification of the araMaps DXF-to-GeoJSON converter (src/dxf_to_geojson.py).

The converter walks the entities of a DXF model space and, per entity kind,
extracts defining points, converts them from the entity's object coordinate
system (OCS) to the world coordinate system (WCS), checks a UTM plausibility
box, reprojects plausible points to WGS84 and emits a GeoJSON feature,
accumulating per-kind skip counts and a filtered count.

Shallow embedding conventions:
* Coordinates are exact rationals.  The pyproj transformer and the ezdxf
  OCS-to-WCS conversion are external collaborators; they enter the model as
  abstract functions (a `Ctx` field and a per-entity `ocs` field).
* `math.cos`/`math.sin` are modelled by abstract functions `cosp`/`sinp`
  taking the angle in units of pi: `cosp q` stands for `cos (q * pi)`.  The
  source's `angle = 2 * math.pi * i / segments` is carried exactly as the
  rational `2 * i / segments`, and `math.radians(deg) = deg * pi / 180` as
  the rational `deg / 180`.  The only property of real trigonometry any
  theorem uses (2-periodicity in these units, i.e. cos (x + 2*pi) = cos x)
  is taken as an explicit hypothesis where needed.
* A Python exception raised while reading an entity's defining fields is
  modelled by the entity's payload being `none`; the `try/except` around the
  dispatch body becomes the `.skipped` / `.silent` outcomes below.
-/

namespace Aramaps

/-- Metadata shared by all DXF entities: the layer attribute (absent when the
entity has no `layer`, in which case the converter uses "0") and the raw DXF
color index (absent when reading it raises). -/
structure EntityMeta where
  layer : Option String
  color : Option Int
deriving DecidableEq

/-- Payload of a LINE entity: `entity.dxf.start` / `entity.dxf.end`. -/
structure LineData where
  start : ℚ × ℚ
  end_ : ℚ × ℚ
deriving DecidableEq

/-- Payload of an LWPOLYLINE entity: `entity.get_points(format="xy")` and the
`entity.closed` flag. -/
structure LwPolylineData where
  points : List (ℚ × ℚ)
  closed : Bool
deriving DecidableEq

/-- Payload of a POLYLINE entity: the vertex locations and `entity.is_closed`. -/
structure PolylineData where
  vertices : List (ℚ × ℚ)
  closed : Bool
deriving DecidableEq

/-- Payload of a CIRCLE entity: `entity.dxf.center` / `entity.dxf.radius`. -/
structure CircleData where
  center : ℚ × ℚ
  radius : ℚ
deriving DecidableEq

/-- Payload of an ARC entity: center, radius and start/end angles in degrees. -/
structure ArcData where
  center : ℚ × ℚ
  radius : ℚ
  start_angle : ℚ
  end_angle : ℚ
deriving DecidableEq

/-- Payload of a POINT entity: `entity.dxf.location`. -/
structure PointData where
  location : ℚ × ℚ
deriving DecidableEq

/-- Payload of a TEXT entity: `halign`/`valign` (with `.get` default 0), the
optional `align_point`, the `insert` point and the optional text string. -/
structure TextData where
  halign : Int
  valign : Int
  align_point : Option (ℚ × ℚ)
  insert : ℚ × ℚ
  text : Option String
deriving DecidableEq

/-- Payload of an MTEXT entity: `entity.dxf.insert` and the optional text. -/
structure MTextData where
  insert : ℚ × ℚ
  text : Option String
deriving DecidableEq

/-- Payload of an INSERT entity: `entity.dxf.insert` and the optional block
name (`entity.dxf.name`, whose access may raise). -/
structure InsertData where
  insert : ℚ × ℚ
  name : Option String
deriving DecidableEq

/-- Payload of a DIMENSION entity: `entity.dxf.defpoint` / `defpoint2`. -/
structure DimensionData where
  defpoint : ℚ × ℚ
  defpoint2 : ℚ × ℚ
deriving DecidableEq

/-- The tagged union of entity kinds handled by `convert_dxf`'s dispatch,
plus `other` for any unrecognized `dxftype()`.  A `none` payload models a
Python exception raised while extracting that kind's defining fields. -/
inductive Payload where
  | line (d : Option LineData)
  | lwpolyline (d : Option LwPolylineData)
  | polyline (d : Option PolylineData)
  | circle (d : Option CircleData)
  | arc (d : Option ArcData)
  | point (d : Option PointData)
  | text (d : Option TextData)
  | mtext (d : Option MTextData)
  | insert (d : Option InsertData)
  | dimension (d : Option DimensionData)
  | other (kind : String)

/-- The string returned by `entity.dxftype()`. -/
def Payload.dxftype : Payload → String
  | .line _ => "LINE"
  | .lwpolyline _ => "LWPOLYLINE"
  | .polyline _ => "POLYLINE"
  | .circle _ => "CIRCLE"
  | .arc _ => "ARC"
  | .point _ => "POINT"
  | .text _ => "TEXT"
  | .mtext _ => "MTEXT"
  | .insert _ => "INSERT"
  | .dimension _ => "DIMENSION"
  | .other kind => kind

/-- A DXF entity as the converter sees it: metadata, the entity's
OCS-to-WCS conversion (`to_wcs(entity, ·)`, an external ezdxf collaborator
determined by the entity's extrusion vector) and the kind-specific payload. -/
structure Entity where
  meta : EntityMeta
  ocs : ℚ × ℚ → ℚ × ℚ
  payload : Payload

/-- `entity_color`: the DXF color index as a string, `none` if the attribute
is missing/raises, is 0 (falsy in Python) or is 256 (BYLAYER). -/
def entity_color (c : Option Int) : Option String :=
  match c with
  | some v => if v ≠ 0 ∧ v ≠ 256 then some (toString v) else none
  | none => none

/-- The property mapping built before the dispatch: `layer` (default "0"),
`type`, and `color` only when `entity_color` yields one. -/
def base_props (e : Entity) : List (String × String) :=
  [("layer", e.meta.layer.getD "0"), ("type", e.payload.dxftype)] ++
    (match entity_color e.meta.color with
     | some c => [("color", c)]
     | none => [])

/-- `in_utm_range`: plausibility box for Iraq UTM coordinates,
`150000 < x < 850000 and 3100000 < y < 4300000` (both intervals open). -/
def in_utm_range (x y : ℚ) : Bool :=
  decide (150000 < x ∧ x < 850000 ∧ 3100000 < y ∧ y < 4300000)

/-- Python's `round` to an integer: round half to even (banker's rounding). -/
def round_half_even (q : ℚ) : ℤ :=
  let f := ⌊q⌋
  if q - f < 1/2 then f
  else if 1/2 < q - f then f + 1
  else if f % 2 = 0 then f else f + 1

/-- `round(q, 7)`: round to 7 decimal digits. -/
def round7 (q : ℚ) : ℚ :=
  (round_half_even (q * 10 ^ 7) : ℚ) / 10 ^ 7

/-- The external collaborators of the converter: the pyproj transformer
(`transformer.transform`, returning longitude then latitude) and real
cosine/sine with arguments in units of pi (`cosp q` models `cos (q * pi)`). -/
structure Ctx where
  tr : ℚ → ℚ → ℚ × ℚ
  cosp : ℚ → ℚ
  sinp : ℚ → ℚ

/-- `reproject`: transform a point and round both coordinates to 7 digits,
returning `[lng, lat]`. -/
def reproject (tr : ℚ → ℚ → ℚ × ℚ) (x y : ℚ) : ℚ × ℚ :=
  (round7 (tr x y).1, round7 (tr x y).2)

/-- `circle_to_polygon`: sample `segments + 1` points of the circle at angles
`2 * pi * i / segments` (held in units of pi as `2 * i / segments`),
reprojecting each. -/
def circle_to_polygon (ctx : Ctx) (cx cy radius : ℚ) (segments : ℕ) :
    List (ℚ × ℚ) :=
  (List.range (segments + 1)).map fun i : ℕ =>
    reproject ctx.tr (cx + radius * ctx.cosp (2 * (i : ℚ) / (segments : ℚ)))
      (cy + radius * ctx.sinp (2 * (i : ℚ) / (segments : ℚ)))

/-- The angle set-up of `arc_to_linestring`, in units of pi:
`sa = radians(start_angle)`, `ea = radians(end_angle)`, and
`if ea <= sa: ea += 2 * pi`.  Returns `(sa, ea)` after the wrap. -/
def arc_sweep (start_angle end_angle : ℚ) : ℚ × ℚ :=
  let sa := start_angle / 180
  let ea := end_angle / 180
  (sa, if ea ≤ sa then ea + 2 else ea)

/-- The `segments + 1` equally spaced sample angles
`sa + (ea - sa) * i / segments` of the arc loop. -/
def sample_angles (sa ea : ℚ) (segments : ℕ) : List ℚ :=
  (List.range (segments + 1)).map fun i : ℕ =>
    sa + (ea - sa) * (i : ℚ) / (segments : ℚ)

/-- `arc_to_linestring`: wrap the angles with `arc_sweep`, then sample and
reproject `segments + 1` points on the arc. -/
def arc_to_linestring (ctx : Ctx) (cx cy radius start_angle end_angle : ℚ)
    (segments : ℕ) : List (ℚ × ℚ) :=
  (sample_angles (arc_sweep start_angle end_angle).1
      (arc_sweep start_angle end_angle).2 segments).map fun angle =>
    reproject ctx.tr (cx + radius * ctx.cosp angle)
      (cy + radius * ctx.sinp angle)

/-- GeoJSON geometry as the converter builds it. -/
inductive Geometry where
  | point (c : ℚ × ℚ)
  | lineString (coords : List (ℚ × ℚ))
  | polygon (rings : List (List (ℚ × ℚ)))
deriving DecidableEq

/-- `make_feature`: a GeoJSON feature, geometry plus properties. -/
structure Feature where
  geometry : Geometry
  props : List (String × String)
deriving DecidableEq

/-- Outcome of processing one entity inside the loop body: a feature is
appended, the entity is filtered (`filtered += 1`), the entity is skipped
(`skipped[dxftype] += 1`, from the unsupported branch or the outer
`except`), or the iteration just continues with no trace (`continue` with no
counter, or the DIMENSION branch's inner `except: pass`). -/
inductive StepOut where
  | emit (f : Feature)
  | filtered
  | skipped
  | silent
deriving DecidableEq

/-- `make_feature` of the source, folded into the `Feature` structure. -/
def make_feature (g : Geometry) (props : List (String × String)) : Feature :=
  ⟨g, props⟩

/-- The TEXT branch's point choice: the alignment point (defaulting to the
insert point) when `halign`/`valign` are non-default, else the insert point. -/
def text_point (d : TextData) : ℚ × ℚ :=
  if d.halign ≠ 0 ∨ d.valign ≠ 0 then d.align_point.getD d.insert
  else d.insert

/-- The LINE branch. -/
def interp_line (ctx : Ctx) (props : List (String × String))
    (ocs : ℚ × ℚ → ℚ × ℚ) (d : LineData) : StepOut :=
  let s := ocs d.start
  let t := ocs d.end_
  if !(in_utm_range s.1 s.2) || !(in_utm_range t.1 t.2) then .filtered
  else .emit (make_feature
    (.lineString [reproject ctx.tr s.1 s.2, reproject ctx.tr t.1 t.2]) props)

/-- The LWPOLYLINE branch: drop silently below 2 raw points, convert to WCS,
keep the plausible vertices, filter when fewer than 2 remain, close the ring
by appending the first coordinate when `closed`. -/
def interp_lwpolyline (ctx : Ctx) (props : List (String × String))
    (ocs : ℚ × ℚ → ℚ × ℚ) (d : LwPolylineData) : StepOut :=
  if d.points.length < 2 then .silent
  else
    let pts := (d.points.map ocs).filter fun p => in_utm_range p.1 p.2
    if pts.length < 2 then .filtered
    else
      let coords := pts.map fun p => reproject ctx.tr p.1 p.2
      if d.closed then .emit (make_feature (.polygon [coords ++ [coords.headI]]) props)
      else .emit (make_feature (.lineString coords) props)

/-- The POLYLINE branch: same as LWPOLYLINE except the raw length check runs
after the WCS conversion of the vertex list. -/
def interp_polyline (ctx : Ctx) (props : List (String × String))
    (ocs : ℚ × ℚ → ℚ × ℚ) (d : PolylineData) : StepOut :=
  let points := d.vertices.map ocs
  if points.length < 2 then .silent
  else
    let pts := points.filter fun p => in_utm_range p.1 p.2
    if pts.length < 2 then .filtered
    else
      let coords := pts.map fun p => reproject ctx.tr p.1 p.2
      if d.closed then .emit (make_feature (.polygon [coords ++ [coords.headI]]) props)
      else .emit (make_feature (.lineString coords) props)

/-- The CIRCLE branch: check the center, tessellate with 64 segments. -/
def interp_circle (ctx : Ctx) (props : List (String × String))
    (ocs : ℚ × ℚ → ℚ × ℚ) (d : CircleData) : StepOut :=
  let c := ocs d.center
  if !(in_utm_range c.1 c.2) then .filtered
  else .emit (make_feature
    (.polygon [circle_to_polygon ctx c.1 c.2 d.radius 64]) props)

/-- The ARC branch: check the center, tessellate with 32 segments, emit only
when at least 2 points result. -/
def interp_arc (ctx : Ctx) (props : List (String × String))
    (ocs : ℚ × ℚ → ℚ × ℚ) (d : ArcData) : StepOut :=
  let c := ocs d.center
  if !(in_utm_range c.1 c.2) then .filtered
  else
    let coords := arc_to_linestring ctx c.1 c.2 d.radius d.start_angle
      d.end_angle 32
    if 2 ≤ coords.length then .emit (make_feature (.lineString coords) props)
    else .silent

/-- The POINT branch. -/
def interp_point (ctx : Ctx) (props : List (String × String))
    (ocs : ℚ × ℚ → ℚ × ℚ) (d : PointData) : StepOut :=
  let p := ocs d.location
  if !(in_utm_range p.1 p.2) then .filtered
  else .emit (make_feature (.point (reproject ctx.tr p.1 p.2)) props)

/-- The TEXT branch: choose the alignment or insert point, check it, carry
the `text` property (empty string when reading the text raises). -/
def interp_text (ctx : Ctx) (props : List (String × String))
    (ocs : ℚ × ℚ → ℚ × ℚ) (d : TextData) : StepOut :=
  let p := ocs (text_point d)
  if !(in_utm_range p.1 p.2) then .filtered
  else .emit (make_feature (.point (reproject ctx.tr p.1 p.2))
    (props ++ [("text", d.text.getD "")]))

/-- The MTEXT branch. -/
def interp_mtext (ctx : Ctx) (props : List (String × String))
    (ocs : ℚ × ℚ → ℚ × ℚ) (d : MTextData) : StepOut :=
  let p := ocs d.insert
  if !(in_utm_range p.1 p.2) then .filtered
  else .emit (make_feature (.point (reproject ctx.tr p.1 p.2))
    (props ++ [("text", d.text.getD "")]))

/-- The INSERT branch: the `block` property appears only when the block name
is readable. -/
def interp_insert (ctx : Ctx) (props : List (String × String))
    (ocs : ℚ × ℚ → ℚ × ℚ) (d : InsertData) : StepOut :=
  let p := ocs d.insert
  if !(in_utm_range p.1 p.2) then .filtered
  else .emit (make_feature (.point (reproject ctx.tr p.1 p.2))
    (props ++ (match d.name with
               | some n => [("block", n)]
               | none => [])))

/-- The DIMENSION branch body (inside its inner `try`): both definition
points are checked, a 2-point LineString is emitted. -/
def interp_dimension (ctx : Ctx) (props : List (String × String))
    (ocs : ℚ × ℚ → ℚ × ℚ) (d : DimensionData) : StepOut :=
  let p1 := ocs d.defpoint
  let p2 := ocs d.defpoint2
  if !(in_utm_range p1.1 p1.2) || !(in_utm_range p2.1 p2.2) then .filtered
  else .emit (make_feature
    (.lineString [reproject ctx.tr p1.1 p1.2, reproject ctx.tr p2.1 p2.2]) props)

/-- The loop body's dispatch on `dxftype` for one entity.  A `none` payload
is an exception while extracting the kind's fields: it reaches the outer
`except` (`.skipped`), except in the DIMENSION branch where the inner
`except: pass` swallows it (`.silent`).  Unrecognized kinds are `.skipped`. -/
def interpret (ctx : Ctx) (e : Entity) : StepOut :=
  let props := base_props e
  match e.payload with
  | .line (some d) => interp_line ctx props e.ocs d
  | .lwpolyline (some d) => interp_lwpolyline ctx props e.ocs d
  | .polyline (some d) => interp_polyline ctx props e.ocs d
  | .circle (some d) => interp_circle ctx props e.ocs d
  | .arc (some d) => interp_arc ctx props e.ocs d
  | .point (some d) => interp_point ctx props e.ocs d
  | .text (some d) => interp_text ctx props e.ocs d
  | .mtext (some d) => interp_mtext ctx props e.ocs d
  | .insert (some d) => interp_insert ctx props e.ocs d
  | .dimension (some d) => interp_dimension ctx props e.ocs d
  | .dimension none => .silent
  | .line none => .skipped
  | .lwpolyline none => .skipped
  | .polyline none => .skipped
  | .circle none => .skipped
  | .arc none => .skipped
  | .point none => .skipped
  | .text none => .skipped
  | .mtext none => .skipped
  | .insert none => .skipped
  | .other _ => .skipped

/-- The aggregate state of one conversion run: features in input order, the
skip counts as an insertion-ordered association list (a Python dict), and
the filtered count. -/
structure ConversionResult where
  features : List Feature
  skipped : List (String × ℕ)
  filtered : ℕ
deriving DecidableEq

/-- `skipped[k] = skipped.get(k, 0) + 1` on an insertion-ordered dict. -/
def bump : List (String × ℕ) → String → List (String × ℕ)
  | [], k => [(k, 1)]
  | (k', v) :: rest, k =>
      if k' = k then (k', v + 1) :: rest else (k', v) :: bump rest k

/-- Total count stored under a key (keys are unique in a dict, so this is
the dict lookup with default 0). -/
def sk_count : List (String × ℕ) → String → ℕ
  | [], _ => 0
  | (k', v) :: rest, k => (if k' = k then v else 0) + sk_count rest k

/-- The accumulator at the top of `convert_dxf`. -/
def init_result : ConversionResult := ⟨[], [], 0⟩

/-- One iteration of the entity loop, merging the dispatch outcome into the
accumulated result. -/
def step (ctx : Ctx) (acc : ConversionResult) (e : Entity) : ConversionResult :=
  match interpret ctx e with
  | .emit f => ⟨acc.features ++ [f], acc.skipped, acc.filtered⟩
  | .filtered => ⟨acc.features, acc.skipped, acc.filtered + 1⟩
  | .skipped => ⟨acc.features, bump acc.skipped e.payload.dxftype, acc.filtered⟩
  | .silent => acc

/-- `convert_dxf`: iterate the model-space entities in order, returning the
features, skip counts and filtered count. -/
def convert_dxf (ctx : Ctx) (entities : List Entity) : ConversionResult :=
  entities.foldl (step ctx) init_result

/-- The defining points (already in WCS) whose plausibility the dispatch
checks all-or-nothing, for the kinds that do not filter per vertex; `none`
for polylines, malformed payloads and unrecognized kinds. -/
def defining_points (e : Entity) : Option (List (ℚ × ℚ)) :=
  match e.payload with
  | .line (some d) => some [e.ocs d.start, e.ocs d.end_]
  | .circle (some d) => some [e.ocs d.center]
  | .arc (some d) => some [e.ocs d.center]
  | .point (some d) => some [e.ocs d.location]
  | .text (some d) => some [e.ocs (text_point d)]
  | .mtext (some d) => some [e.ocs d.insert]
  | .insert (some d) => some [e.ocs d.insert]
  | .dimension (some d) => some [e.ocs d.defpoint, e.ocs d.defpoint2]
  | _ => none

/-- True when the payload models an extraction failure (a raised exception)
for a recognized kind. -/
def failed_payload : Payload → Bool
  | .line none => true
  | .lwpolyline none => true
  | .polyline none => true
  | .circle none => true
  | .arc none => true
  | .point none => true
  | .text none => true
  | .mtext none => true
  | .insert none => true
  | .dimension none => true
  | _ => false

/-- The geometry-arity invariant the emitted features satisfy: LineStrings
have at least 2 coordinates and every polygon ring at least 3 (the closing
coordinate included). -/
def geom_ok : Geometry → Bool
  | .point _ => true
  | .lineString coords => decide (2 ≤ coords.length)
  | .polygon rings => rings.all fun r => decide (3 ≤ r.length)

/-- The ring-closure invariant: a polygon carries exactly one ring and that
ring's first and last coordinates agree. -/
def poly_ok : Geometry → Bool
  | .polygon rings =>
      decide (rings.length = 1) &&
        rings.all fun r => decide (r.head? = r.getLast?)
  | _ => true

/-- A concrete collaborator context for concrete runs: an identity
transformer and constant trigonometric collaborators (constants satisfy the
2-periodicity that the real cosine and sine have in units of pi). -/
def ctx0 : Ctx := ⟨fun x y => (x, y), fun _ => 1, fun _ => 0⟩

/-- Entity metadata with no layer attribute and no color. -/
def meta0 : EntityMeta := ⟨none, none⟩

/-- A LINE whose start point (10, 10) is outside the plausibility box. -/
def ent_line_bad : Entity := ⟨meta0, id, .line (some ⟨(10, 10), (300000, 3600000)⟩)⟩

/-- An open LWPOLYLINE with three vertices, the first of which, (10, 10),
fails the plausibility check while the other two pass. -/
def ent_lw_bad3 : Entity :=
  ⟨meta0, id, .lwpolyline (some ⟨[(10, 10), (300000, 3600000), (300100, 3600100)], false⟩)⟩

/-- A closed LWPOLYLINE with exactly two plausible vertices. -/
def ent_lw_closed2 : Entity :=
  ⟨meta0, id, .lwpolyline (some ⟨[(300000, 3600000), (300100, 3600100)], true⟩)⟩

/-- A DIMENSION entity whose definition-point extraction raises. -/
def ent_dim_none : Entity := ⟨meta0, id, .dimension none⟩

/-- A LINE entity whose field extraction raises. -/
def ent_line_none : Entity := ⟨meta0, id, .line none⟩

/-- A POINT entity at a plausible location. -/
def ent_point_ok : Entity := ⟨meta0, id, .point (some ⟨(300000, 3600000)⟩)⟩

/-- An ARC centered at a plausible location. -/
def ent_arc_ok : Entity := ⟨meta0, id, .arc (some ⟨(400000, 3700000), 10, 0, 90⟩)⟩

/-! ### Tessellation lemmas -/

theorem length_circle_to_polygon (ctx : Ctx) (cx cy r : ℚ) (segs : ℕ) :
    (circle_to_polygon ctx cx cy r segs).length = segs + 1 := by
  simp [circle_to_polygon]

theorem length_sample_angles (sa ea : ℚ) (segs : ℕ) :
    (sample_angles sa ea segs).length = segs + 1 := by
  simp [sample_angles]

theorem length_arc_to_linestring (ctx : Ctx) (cx cy r sa ea : ℚ) (segs : ℕ) :
    (arc_to_linestring ctx cx cy r sa ea segs).length = segs + 1 := by
  simp [arc_to_linestring, length_sample_angles]

theorem circle_to_polygon_getElem (ctx : Ctx) (cx cy r : ℚ) (segs i : ℕ)
    (h : i < segs + 1) :
    (circle_to_polygon ctx cx cy r segs)[i]? =
      some (reproject ctx.tr (cx + r * ctx.cosp (2 * i / segs))
        (cy + r * ctx.sinp (2 * i / segs))) := by
  unfold circle_to_polygon
  rw [List.getElem?_map, List.getElem?_range h]
  rfl

theorem circle_to_polygon_closed (ctx : Ctx) (cx cy r : ℚ)
    (hcos : ctx.cosp 2 = ctx.cosp 0) (hsin : ctx.sinp 2 = ctx.sinp 0) :
    (circle_to_polygon ctx cx cy r 64).head? =
      (circle_to_polygon ctx cx cy r 64).getLast? := by
  rw [List.head?_eq_getElem?, List.getLast?_eq_getElem?, length_circle_to_polygon]
  rw [circle_to_polygon_getElem ctx cx cy r 64 0 (by norm_num)]
  rw [show (64 + 1 - 1 : ℕ) = 64 from rfl]
  rw [circle_to_polygon_getElem ctx cx cy r 64 64 (by norm_num)]
  norm_num [hcos, hsin]

theorem ring_closed_of_ne_nil (l : List (ℚ × ℚ)) (h : l ≠ []) :
    (l ++ [l.headI]).head? = (l ++ [l.headI]).getLast? := by
  cases l with
  | nil => exact absurd rfl h
  | cons a t =>
      rw [List.getLast?_concat]
      simp [List.headI]

theorem sample_angles_pairwise (sa ea : ℚ) (segs : ℕ) (hs : 0 < segs)
    (h : 0 < ea - sa) : (sample_angles sa ea segs).Pairwise (· < ·) := by
  unfold sample_angles
  refine List.Pairwise.map _ ?_ (List.pairwise_lt_range _)
  intro a b hab
  have hcast : (a : ℚ) < b := by exact_mod_cast hab
  have hsegs : (0 : ℚ) < segs := by exact_mod_cast hs
  have : (ea - sa) * a / segs < (ea - sa) * b / segs := by
    apply div_lt_div_of_pos_right ?_ hsegs
    exact mul_lt_mul_of_pos_left hcast h
  linarith

/-! ### Invariants of emitted features -/

theorem geom_ok_of_emit (ctx : Ctx) (e : Entity) (f : Feature)
    (h : interpret ctx e = .emit f) : geom_ok f.geometry = true := by
  rcases e with ⟨m, ocs, p⟩
  cases p with
  | line d =>
      cases d with
      | none => simp [interpret] at h
      | some d =>
          simp only [interpret, interp_line] at h
          split at h
          · simp at h
          · injection h with h
            subst h
            simp [make_feature, geom_ok]
  | lwpolyline d =>
      cases d with
      | none => simp [interpret] at h
      | some d =>
          simp only [interpret, interp_lwpolyline] at h
          split at h
          · simp at h
          · split at h
            · simp at h
            · rename_i hraw h2
              split at h
              · injection h with h
                subst h
                simp only [make_feature, geom_ok, List.all_cons, List.all_nil,
                  Bool.and_true, decide_eq_true_eq, List.length_append,
                  List.length_map, List.length_cons, List.length_nil]
                omega
              · injection h with h
                subst h
                simp only [make_feature, geom_ok, decide_eq_true_eq,
                  List.length_map]
                omega
  | polyline d =>
      cases d with
      | none => simp [interpret] at h
      | some d =>
          simp only [interpret, interp_polyline] at h
          split at h
          · simp at h
          · split at h
            · simp at h
            · rename_i hraw h2
              split at h
              · injection h with h
                subst h
                simp only [make_feature, geom_ok, List.all_cons, List.all_nil,
                  Bool.and_true, decide_eq_true_eq, List.length_append,
                  List.length_map, List.length_cons, List.length_nil]
                omega
              · injection h with h
                subst h
                simp only [make_feature, geom_ok, decide_eq_true_eq,
                  List.length_map]
                omega
  | circle d =>
      cases d with
      | none => simp [interpret] at h
      | some d =>
          simp only [interpret, interp_circle] at h
          split at h
          · simp at h
          · injection h with h
            subst h
            simp [make_feature, geom_ok, length_circle_to_polygon]
  | arc d =>
      cases d with
      | none => simp [interpret] at h
      | some d =>
          simp only [interpret, interp_arc] at h
          split at h
          · simp at h
          · split at h
            · rename_i hrange h2
              injection h with h
              subst h
              simpa [make_feature, geom_ok] using h2
            · simp at h
  | point d =>
      cases d with
      | none => simp [interpret] at h
      | some d =>
          simp only [interpret, interp_point] at h
          split at h
          · simp at h
          · injection h with h
            subst h
            simp [make_feature, geom_ok]
  | text d =>
      cases d with
      | none => simp [interpret] at h
      | some d =>
          simp only [interpret, interp_text] at h
          split at h
          · simp at h
          · injection h with h
            subst h
            simp [make_feature, geom_ok]
  | mtext d =>
      cases d with
      | none => simp [interpret] at h
      | some d =>
          simp only [interpret, interp_mtext] at h
          split at h
          · simp at h
          · injection h with h
            subst h
            simp [make_feature, geom_ok]
  | insert d =>
      cases d with
      | none => simp [interpret] at h
      | some d =>
          simp only [interpret, interp_insert] at h
          split at h
          · simp at h
          · injection h with h
            subst h
            simp [make_feature, geom_ok]
  | dimension d =>
      cases d with
      | none => simp [interpret] at h
      | some d =>
          simp only [interpret, interp_dimension] at h
          split at h
          · simp at h
          · injection h with h
            subst h
            simp [make_feature, geom_ok]
  | other k => simp [interpret] at h

theorem poly_ok_of_emit (ctx : Ctx) (e : Entity) (f : Feature)
    (hcos : ctx.cosp 2 = ctx.cosp 0) (hsin : ctx.sinp 2 = ctx.sinp 0)
    (h : interpret ctx e = .emit f) : poly_ok f.geometry = true := by
  rcases e with ⟨m, ocs, p⟩
  cases p with
  | line d =>
      cases d with
      | none => simp [interpret] at h
      | some d =>
          simp only [interpret, interp_line] at h
          split at h
          · simp at h
          · injection h with h
            subst h
            simp [make_feature, poly_ok]
  | lwpolyline d =>
      cases d with
      | none => simp [interpret] at h
      | some d =>
          simp only [interpret, interp_lwpolyline] at h
          split at h
          · simp at h
          · split at h
            · simp at h
            · rename_i hraw h2
              split at h
              · injection h with h
                subst h
                simp only [make_feature, poly_ok, List.all_cons, List.all_nil,
                  Bool.and_true, List.length_cons, List.length_nil,
                  decide_eq_true_eq, Bool.and_eq_true, and_true, true_and]
                exact ring_closed_of_ne_nil _ (by
                  apply List.ne_nil_of_length_pos
                  rw [List.length_map]
                  omega)
              · injection h with h
                subst h
                simp [make_feature, poly_ok]
  | polyline d =>
      cases d with
      | none => simp [interpret] at h
      | some d =>
          simp only [interpret, interp_polyline] at h
          split at h
          · simp at h
          · split at h
            · simp at h
            · rename_i hraw h2
              split at h
              · injection h with h
                subst h
                simp only [make_feature, poly_ok, List.all_cons, List.all_nil,
                  Bool.and_true, List.length_cons, List.length_nil,
                  decide_eq_true_eq, Bool.and_eq_true, and_true, true_and]
                exact ring_closed_of_ne_nil _ (by
                  apply List.ne_nil_of_length_pos
                  rw [List.length_map]
                  omega)
              · injection h with h
                subst h
                simp [make_feature, poly_ok]
  | circle d =>
      cases d with
      | none => simp [interpret] at h
      | some d =>
          simp only [interpret, interp_circle] at h
          split at h
          · simp at h
          · injection h with h
            subst h
            simp only [make_feature, poly_ok, List.all_cons, List.all_nil,
              Bool.and_true, List.length_cons, List.length_nil,
              decide_eq_true_eq, Bool.and_eq_true, and_true, true_and]
            exact circle_to_polygon_closed ctx _ _ _ hcos hsin
  | arc d =>
      cases d with
      | none => simp [interpret] at h
      | some d =>
          simp only [interpret, interp_arc] at h
          split at h
          · simp at h
          · split at h
            · injection h with h
              subst h
              simp [make_feature, poly_ok]
            · simp at h
  | point d =>
      cases d with
      | none => simp [interpret] at h
      | some d =>
          simp only [interpret, interp_point] at h
          split at h
          · simp at h
          · injection h with h
            subst h
            simp [make_feature, poly_ok]
  | text d =>
      cases d with
      | none => simp [interpret] at h
      | some d =>
          simp only [interpret, interp_text] at h
          split at h
          · simp at h
          · injection h with h
            subst h
            simp [make_feature, poly_ok]
  | mtext d =>
      cases d with
      | none => simp [interpret] at h
      | some d =>
          simp only [interpret, interp_mtext] at h
          split at h
          · simp at h
          · injection h with h
            subst h
            simp [make_feature, poly_ok]
  | insert d =>
      cases d with
      | none => simp [interpret] at h
      | some d =>
          simp only [interpret, interp_insert] at h
          split at h
          · simp at h
          · injection h with h
            subst h
            simp [make_feature, poly_ok]
  | dimension d =>
      cases d with
      | none => simp [interpret] at h
      | some d =>
          simp only [interpret, interp_dimension] at h
          split at h
          · simp at h
          · injection h with h
            subst h
            simp [make_feature, poly_ok]
  | other k => simp [interpret] at h

theorem all_features_foldl (ctx : Ctx) (P : Feature → Bool)
    (hP : ∀ e f, interpret ctx e = .emit f → P f = true) (es : List Entity) :
    ∀ acc : ConversionResult, acc.features.all P = true →
      ((es.foldl (step ctx) acc).features.all P) = true := by
  induction es with
  | nil => intro acc hacc; simpa using hacc
  | cons e es ih =>
      intro acc hacc
      rw [List.foldl_cons]
      apply ih
      unfold step
      cases hi : interpret ctx e with
      | emit f => simp [List.all_append, hacc, hP e f hi]
      | filtered => simpa using hacc
      | skipped => simpa using hacc
      | silent => simpa using hacc

/-! ### Decomposition of the accumulated counters -/

theorem convert_dxf_singleton (ctx : Ctx) (e : Entity) :
    convert_dxf ctx [e] = step ctx init_result e := rfl

theorem convert_dxf_cons (ctx : Ctx) (e : Entity) (es : List Entity) :
    convert_dxf ctx (e :: es) = es.foldl (step ctx) (step ctx init_result e) :=
  rfl

theorem sk_count_bump (m : List (String × ℕ)) (k' k : String) :
    sk_count (bump m k') k = sk_count m k + if k' = k then 1 else 0 := by
  induction m with
  | nil => simp [bump, sk_count]
  | cons a rest ih =>
      rcases a with ⟨ka, v⟩
      by_cases hk : ka = k'
      · subst hk
        simp only [bump, if_pos rfl, sk_count]
        split_ifs <;> omega
      · simp only [bump, if_neg hk, sk_count, ih]
        omega

theorem step_features_eq (ctx : Ctx) (acc : ConversionResult) (e : Entity) :
    (step ctx acc e).features = acc.features ++ (step ctx init_result e).features := by
  unfold step
  cases interpret ctx e <;> simp [init_result]

theorem step_filtered_eq (ctx : Ctx) (acc : ConversionResult) (e : Entity) :
    (step ctx acc e).filtered = acc.filtered + (step ctx init_result e).filtered := by
  unfold step
  cases interpret ctx e <;> simp [init_result]

theorem step_sk_eq (ctx : Ctx) (acc : ConversionResult) (e : Entity) (k : String) :
    sk_count (step ctx acc e).skipped k
      = sk_count acc.skipped k + sk_count (step ctx init_result e).skipped k := by
  unfold step
  cases interpret ctx e <;> simp [init_result, sk_count, sk_count_bump]

theorem foldl_features_eq (ctx : Ctx) (es : List Entity) :
    ∀ acc : ConversionResult,
      ((es.foldl (step ctx) acc).features) = acc.features ++ (convert_dxf ctx es).features := by
  induction es with
  | nil => intro acc; simp [convert_dxf, init_result]
  | cons e es ih =>
      intro acc
      rw [List.foldl_cons, ih (step ctx acc e), convert_dxf_cons,
        ih (step ctx init_result e), step_features_eq]
      simp [List.append_assoc]

theorem foldl_filtered_eq (ctx : Ctx) (es : List Entity) :
    ∀ acc : ConversionResult,
      ((es.foldl (step ctx) acc).filtered) = acc.filtered + (convert_dxf ctx es).filtered := by
  induction es with
  | nil => intro acc; simp [convert_dxf, init_result]
  | cons e es ih =>
      intro acc
      rw [List.foldl_cons, ih (step ctx acc e), convert_dxf_cons,
        ih (step ctx init_result e), step_filtered_eq]
      omega

theorem foldl_sk_eq (ctx : Ctx) (es : List Entity) :
    ∀ (acc : ConversionResult) (k : String),
      sk_count ((es.foldl (step ctx) acc).skipped) k
        = sk_count acc.skipped k + sk_count (convert_dxf ctx es).skipped k := by
  induction es with
  | nil => intro acc k; simp [convert_dxf, init_result, sk_count]
  | cons e es ih =>
      intro acc k
      rw [List.foldl_cons, ih (step ctx acc e), convert_dxf_cons,
        ih (step ctx init_result e), step_sk_eq]
      omega

/-! ### Dispatch outcomes -/

theorem interpret_skipped_of_failed (ctx : Ctx) (e : Entity)
    (h : failed_payload e.payload = true) (hd : e.payload.dxftype ≠ "DIMENSION") :
    interpret ctx e = .skipped := by
  rcases e with ⟨m, o, p⟩
  cases p with
  | line d => cases d with
    | none => rfl
    | some d => simp [failed_payload] at h
  | lwpolyline d => cases d with
    | none => rfl
    | some d => simp [failed_payload] at h
  | polyline d => cases d with
    | none => rfl
    | some d => simp [failed_payload] at h
  | circle d => cases d with
    | none => rfl
    | some d => simp [failed_payload] at h
  | arc d => cases d with
    | none => rfl
    | some d => simp [failed_payload] at h
  | point d => cases d with
    | none => rfl
    | some d => simp [failed_payload] at h
  | text d => cases d with
    | none => rfl
    | some d => simp [failed_payload] at h
  | mtext d => cases d with
    | none => rfl
    | some d => simp [failed_payload] at h
  | insert d => cases d with
    | none => rfl
    | some d => simp [failed_payload] at h
  | dimension d => cases d with
    | none => exact absurd rfl hd
    | some d => simp [failed_payload] at h
  | other k => simp [failed_payload] at h

theorem interpret_filtered_of_bad_point (ctx : Ctx) (e : Entity)
    (pts : List (ℚ × ℚ)) (hpts : defining_points e = some pts)
    (hbad : ∃ p ∈ pts, in_utm_range p.1 p.2 = false) :
    interpret ctx e = .filtered := by
  obtain ⟨q, hq, hqf⟩ := hbad
  rcases e with ⟨m, o, p⟩
  cases p with
  | line d =>
      cases d with
      | none => simp [defining_points] at hpts
      | some d =>
          simp only [defining_points] at hpts
          injection hpts with hpts
          subst hpts
          simp only [List.mem_cons, List.mem_singleton] at hq
          rcases hq with rfl | rfl | h
          · simp [interpret, interp_line, hqf]
          · simp [interpret, interp_line, hqf]
          · simp at h
  | lwpolyline d => simp [defining_points] at hpts
  | polyline d => simp [defining_points] at hpts
  | circle d =>
      cases d with
      | none => simp [defining_points] at hpts
      | some d =>
          simp only [defining_points] at hpts
          injection hpts with hpts
          subst hpts
          simp only [List.mem_singleton] at hq
          subst hq
          simp [interpret, interp_circle, hqf]
  | arc d =>
      cases d with
      | none => simp [defining_points] at hpts
      | some d =>
          simp only [defining_points] at hpts
          injection hpts with hpts
          subst hpts
          simp only [List.mem_singleton] at hq
          subst hq
          simp [interpret, interp_arc, hqf]
  | point d =>
      cases d with
      | none => simp [defining_points] at hpts
      | some d =>
          simp only [defining_points] at hpts
          injection hpts with hpts
          subst hpts
          simp only [List.mem_singleton] at hq
          subst hq
          simp [interpret, interp_point, hqf]
  | text d =>
      cases d with
      | none => simp [defining_points] at hpts
      | some d =>
          simp only [defining_points] at hpts
          injection hpts with hpts
          subst hpts
          simp only [List.mem_singleton] at hq
          subst hq
          simp [interpret, interp_text, hqf]
  | mtext d =>
      cases d with
      | none => simp [defining_points] at hpts
      | some d =>
          simp only [defining_points] at hpts
          injection hpts with hpts
          subst hpts
          simp only [List.mem_singleton] at hq
          subst hq
          simp [interpret, interp_mtext, hqf]
  | insert d =>
      cases d with
      | none => simp [defining_points] at hpts
      | some d =>
          simp only [defining_points] at hpts
          injection hpts with hpts
          subst hpts
          simp only [List.mem_singleton] at hq
          subst hq
          simp [interpret, interp_insert, hqf]
  | dimension d =>
      cases d with
      | none => simp [defining_points] at hpts
      | some d =>
          simp only [defining_points] at hpts
          injection hpts with hpts
          subst hpts
          simp only [List.mem_cons, List.mem_singleton] at hq
          rcases hq with rfl | rfl | h
          · simp [interpret, interp_dimension, hqf]
          · simp [interpret, interp_dimension, hqf]
          · simp at h
  | other k => simp [defining_points] at hpts

theorem step_of_filtered (ctx : Ctx) (e : Entity)
    (h : interpret ctx e = .filtered) :
    step ctx init_result e = ⟨[], [], 1⟩ := by
  unfold step
  rw [h]
  rfl

theorem step_of_silent (ctx : Ctx) (e : Entity)
    (h : interpret ctx e = .silent) :
    step ctx init_result e = init_result := by
  unfold step
  rw [h]

/-! ### Claim theorems -/

/-- Claim C1, corrected.  For the non-polyline kinds (Line, Circle, Arc,
Point, Text, MText, Insert, Dimension) the plausibility check is applied to
every defining point and any failing point filters the whole entity: no
feature, `filteredCount` incremented by exactly one.  For polylines the
claim fails: failing vertices are dropped individually, the entity is
filtered (again with exactly one increment) only when fewer than 2 vertices
survive, and otherwise a feature is still emitted. -/
theorem C1_thm (ctx : Ctx) (e : Entity) :
    (∀ pts, defining_points e = some pts →
      (∃ p ∈ pts, in_utm_range p.1 p.2 = false) →
      convert_dxf ctx [e] = ⟨[], [], 1⟩)
    ∧ (∀ d : LwPolylineData, e.payload = .lwpolyline (some d) →
        2 ≤ d.points.length →
        ((d.points.map e.ocs).filter fun p => in_utm_range p.1 p.2).length < 2 →
        convert_dxf ctx [e] = ⟨[], [], 1⟩)
    ∧ (∀ d : LwPolylineData, e.payload = .lwpolyline (some d) →
        2 ≤ ((d.points.map e.ocs).filter fun p => in_utm_range p.1 p.2).length →
        (convert_dxf ctx [e]).filtered = 0 ∧ (convert_dxf ctx [e]).features.length = 1)
    ∧ (∀ d : PolylineData, e.payload = .polyline (some d) →
        2 ≤ d.vertices.length →
        ((d.vertices.map e.ocs).filter fun p => in_utm_range p.1 p.2).length < 2 →
        convert_dxf ctx [e] = ⟨[], [], 1⟩)
    ∧ (∀ d : PolylineData, e.payload = .polyline (some d) →
        2 ≤ ((d.vertices.map e.ocs).filter fun p => in_utm_range p.1 p.2).length →
        (convert_dxf ctx [e]).filtered = 0 ∧ (convert_dxf ctx [e]).features.length = 1) := by
  refine ⟨?_, ?_, ?_, ?_, ?_⟩
  · intro pts hpts hbad
    rw [convert_dxf_singleton,
      step_of_filtered ctx e (interpret_filtered_of_bad_point ctx e pts hpts hbad)]
  · intro d hd hraw hflt
    have hi : interpret ctx e = .filtered := by
      simp only [interpret, hd, interp_lwpolyline]
      rw [if_neg (by omega), if_pos hflt]
    rw [convert_dxf_singleton, step_of_filtered ctx e hi]
  · intro d hd hflt2
    have hraw : ¬(d.points.length < 2) := by
      have hle := List.length_filter_le (fun p => in_utm_range p.1 p.2) (d.points.map e.ocs)
      rw [List.length_map] at hle
      omega
    obtain ⟨f, hi⟩ : ∃ f, interpret ctx e = .emit f := by
      simp only [interpret, hd, interp_lwpolyline]
      rw [if_neg hraw, if_neg (by omega)]
      by_cases hc : d.closed = true
      · exact ⟨_, by rw [if_pos hc]⟩
      · exact ⟨_, by rw [if_neg hc]⟩
    rw [convert_dxf_singleton]
    unfold step
    rw [hi]
    simp [init_result]
  · intro d hd hraw hflt
    have hi : interpret ctx e = .filtered := by
      simp only [interpret, hd, interp_polyline]
      rw [if_neg (by rw [List.length_map]; omega), if_pos hflt]
    rw [convert_dxf_singleton, step_of_filtered ctx e hi]
  · intro d hd hflt2
    have hraw : ¬((d.vertices.map e.ocs).length < 2) := by
      have hle := List.length_filter_le (fun p => in_utm_range p.1 p.2) (d.vertices.map e.ocs)
      omega
    obtain ⟨f, hi⟩ : ∃ f, interpret ctx e = .emit f := by
      simp only [interpret, hd, interp_polyline]
      rw [if_neg hraw, if_neg (by omega)]
      by_cases hc : d.closed = true
      · exact ⟨_, by rw [if_pos hc]⟩
      · exact ⟨_, by rw [if_neg hc]⟩
    rw [convert_dxf_singleton]
    unfold step
    rw [hi]
    simp [init_result]

/-- Claim C1, counterexample to the claim as stated: an open LWPOLYLINE with
a defining point (10, 10) that fails the plausibility check still emits a
feature, and `filteredCount` stays 0 — the whole entity is not filtered. -/
theorem C1_cex :
    in_utm_range 10 10 = false
    ∧ (convert_dxf ctx0 [ent_lw_bad3]).features.length = 1
    ∧ (convert_dxf ctx0 [ent_lw_bad3]).filtered = 0 :=
  ⟨by decide, by decide, by decide⟩

/-- Claim C1, witness: a LINE with one implausible endpoint is filtered with
`filteredCount` exactly 1 and no feature. -/
theorem C1_witness : convert_dxf ctx0 [ent_line_bad] = ⟨[], [], 1⟩ :=
  (C1_thm ctx0 ent_line_bad).1 [(10, 10), (300000, 3600000)] rfl
    ⟨(10, 10), by decide, by decide⟩

/-- Claim C2, corrected.  Every LineString feature emitted by a conversion
has at least 2 coordinates and every Polygon ring at least 3 coordinates
(not 4 as claimed: a closed polyline with exactly two surviving vertices
emits a 3-coordinate ring). -/
theorem C2_thm (ctx : Ctx) (es : List Entity) :
    ((convert_dxf ctx es).features.all fun f => geom_ok f.geometry) = true := by
  unfold convert_dxf
  exact all_features_foldl ctx _ (fun e f h => geom_ok_of_emit ctx e f h) es
    init_result (by simp [init_result])

/-- Claim C2, counterexample to the claim as stated: a closed LWPOLYLINE
with exactly two plausible vertices emits a Polygon whose sole ring has 3
coordinates, violating the claimed minimum of 4. -/
theorem C2_cex :
    ((convert_dxf ctx0 [ent_lw_closed2]).features.all fun f =>
        match f.geometry with
        | .polygon rings => rings.all fun r => decide (4 ≤ r.length)
        | _ => true) = false
    ∧ ((convert_dxf ctx0 [ent_lw_closed2]).features.map fun f =>
        match f.geometry with
        | .polygon rings => some (rings.map List.length)
        | _ => none) = [some [3]] :=
  ⟨by decide, by decide⟩

/-- Claim C3, corrected.  An extraction failure on any recognized kind other
than Dimension is caught at the entity boundary, increments
`skippedCounts` under that kind by exactly one, leaves features and
`filteredCount` unchanged, and processing continues with the remaining
entities.  For a Dimension entity the claim fails: the failure is swallowed
silently and the conversion result is as if the entity were absent. -/
theorem C3_thm (ctx : Ctx) (e : Entity) (es : List Entity) :
    (failed_payload e.payload = true → e.payload.dxftype ≠ "DIMENSION" →
      (convert_dxf ctx (e :: es)).features = (convert_dxf ctx es).features
      ∧ (convert_dxf ctx (e :: es)).filtered = (convert_dxf ctx es).filtered
      ∧ sk_count (convert_dxf ctx (e :: es)).skipped e.payload.dxftype
          = sk_count (convert_dxf ctx es).skipped e.payload.dxftype + 1)
    ∧ (e.payload = .dimension none →
        convert_dxf ctx (e :: es) = convert_dxf ctx es) := by
  constructor
  · intro hf hd
    have hi := interpret_skipped_of_failed ctx e hf hd
    have hstep : step ctx init_result e = ⟨[], [(e.payload.dxftype, 1)], 0⟩ := by
      unfold step
      rw [hi]
      rfl
    refine ⟨?_, ?_, ?_⟩
    · rw [convert_dxf_cons, foldl_features_eq ctx es, hstep]
      simp
    · rw [convert_dxf_cons, foldl_filtered_eq ctx es, hstep]
      simp
    · rw [convert_dxf_cons, foldl_sk_eq ctx es, hstep]
      simp [sk_count]
      omega
  · intro hd
    have hi : interpret ctx e = .silent := by
      rcases e with ⟨m, o, p⟩
      dsimp only at hd
      subst hd
      rfl
    rw [convert_dxf_cons, step_of_silent ctx e hi]
    rfl

/-- Claim C3, counterexample to the claim as stated: a DIMENSION entity
whose interpretation fails leaves `skippedCounts` empty — the failure is
not recorded under its kind. -/
theorem C3_cex :
    convert_dxf ctx0 [ent_dim_none] = ⟨[], [], 0⟩
    ∧ sk_count (convert_dxf ctx0 [ent_dim_none]).skipped "DIMENSION" = 0 :=
  ⟨rfl, rfl⟩

/-- Claim C3, witness: a LINE whose extraction fails is skipped under
"LINE", with features and filtered count untouched, and the following
entity is still processed. -/
theorem C3_witness :
    (convert_dxf ctx0 (ent_line_none :: [ent_point_ok])).features
        = (convert_dxf ctx0 [ent_point_ok]).features
    ∧ (convert_dxf ctx0 (ent_line_none :: [ent_point_ok])).filtered
        = (convert_dxf ctx0 [ent_point_ok]).filtered
    ∧ sk_count (convert_dxf ctx0 (ent_line_none :: [ent_point_ok])).skipped
          ent_line_none.payload.dxftype
        = sk_count (convert_dxf ctx0 [ent_point_ok]).skipped
            ent_line_none.payload.dxftype + 1 :=
  (C3_thm ctx0 ent_line_none [ent_point_ok]).1 rfl (by decide)

/-- Claim C4, confirmed.  A point is plausible iff `150000 < x < 850000`
and `3100000 < y < 4300000`, with all four bounds strict, so coordinates
exactly on a boundary are rejected. -/
theorem C4_thm :
    (∀ x y : ℚ, in_utm_range x y = true ↔
      (150000 < x ∧ x < 850000 ∧ 3100000 < y ∧ y < 4300000))
    ∧ in_utm_range 150000 3600000 = false
    ∧ in_utm_range 850000 3600000 = false
    ∧ in_utm_range 400000 3100000 = false
    ∧ in_utm_range 400000 4300000 = false := by
  refine ⟨fun x y => ?_, by decide, by decide, by decide, by decide⟩
  simp [in_utm_range]

/-- Claim C5, confirmed.  With segments = 64, `circle_to_polygon` returns
exactly 65 points, the i-th sampled at angle 2·pi·i/64 (held in units of
pi), and the first point equals the last, given the 2·pi-periodicity of the
trigonometric collaborators. -/
theorem C5_thm (ctx : Ctx) (cx cy r : ℚ)
    (hcos : ctx.cosp 2 = ctx.cosp 0) (hsin : ctx.sinp 2 = ctx.sinp 0) :
    (circle_to_polygon ctx cx cy r 64).length = 65
    ∧ (∀ i : ℕ, i < 65 →
        (circle_to_polygon ctx cx cy r 64)[i]? =
          some (reproject ctx.tr (cx + r * ctx.cosp (2 * (i : ℚ) / 64))
            (cy + r * ctx.sinp (2 * (i : ℚ) / 64))))
    ∧ (circle_to_polygon ctx cx cy r 64).head? =
        (circle_to_polygon ctx cx cy r 64).getLast? := by
  refine ⟨by rw [length_circle_to_polygon], ?_,
    circle_to_polygon_closed ctx cx cy r hcos hsin⟩
  intro i hi
  have h := circle_to_polygon_getElem ctx cx cy r 64 i (by omega)
  simpa using h

/-- Claim C5, witness: the theorem applied to the concrete context and the
circle of Scenario B (center (400000, 3700000), radius 10). -/
theorem C5_witness :
    (circle_to_polygon ctx0 400000 3700000 10 64).length = 65
    ∧ (∀ i : ℕ, i < 65 →
        (circle_to_polygon ctx0 400000 3700000 10 64)[i]? =
          some (reproject ctx0.tr (400000 + 10 * ctx0.cosp (2 * (i : ℚ) / 64))
            (3700000 + 10 * ctx0.sinp (2 * (i : ℚ) / 64))))
    ∧ (circle_to_polygon ctx0 400000 3700000 10 64).head? =
        (circle_to_polygon ctx0 400000 3700000 10 64).getLast? :=
  C5_thm ctx0 400000 3700000 10 rfl rfl

/-- Claim C6, corrected.  For arcs whose start and end angles lie in
[0°, 360°) the claim holds: angles are converted to radians (carried in
units of pi as degrees/180), 2·pi is added to the end angle whenever
endAngle ≤ startAngle, the resulting sweep is positive and at most 2·pi,
and the 33 sample angles are equally spaced and strictly increasing.  For
angles outside [0°, 360°) the claim fails (see the counterexample). -/
theorem C6_thm (sd ed : ℚ) (hs0 : 0 ≤ sd) (hs1 : sd < 360)
    (he0 : 0 ≤ ed) (he1 : ed < 360) :
    (arc_sweep sd ed).1 = sd / 180
    ∧ (ed / 180 ≤ sd / 180 → (arc_sweep sd ed).2 = ed / 180 + 2)
    ∧ (sd / 180 < ed / 180 → (arc_sweep sd ed).2 = ed / 180)
    ∧ 0 < (arc_sweep sd ed).2 - (arc_sweep sd ed).1
    ∧ (arc_sweep sd ed).2 - (arc_sweep sd ed).1 ≤ 2
    ∧ (sample_angles (arc_sweep sd ed).1 (arc_sweep sd ed).2 32).length = 33
    ∧ (∀ i : ℕ,
        ((arc_sweep sd ed).1
            + ((arc_sweep sd ed).2 - (arc_sweep sd ed).1) * ((i : ℚ) + 1) / 32)
          - ((arc_sweep sd ed).1
            + ((arc_sweep sd ed).2 - (arc_sweep sd ed).1) * (i : ℚ) / 32)
          = ((arc_sweep sd ed).2 - (arc_sweep sd ed).1) / 32)
    ∧ (sample_angles (arc_sweep sd ed).1 (arc_sweep sd ed).2 32).Pairwise (· < ·) := by
  have h1 : (arc_sweep sd ed).1 = sd / 180 := by simp [arc_sweep]
  have hsweep : 0 < (arc_sweep sd ed).2 - (arc_sweep sd ed).1 ∧
      (arc_sweep sd ed).2 - (arc_sweep sd ed).1 ≤ 2 := by
    by_cases h : ed / 180 ≤ sd / 180
    · have h2 : (arc_sweep sd ed).2 = ed / 180 + 2 := by simp [arc_sweep, h]
      rw [h1, h2]
      constructor <;> linarith
    · have h2 : (arc_sweep sd ed).2 = ed / 180 := by simp [arc_sweep, h]
      rw [h1, h2]
      push_neg at h
      constructor <;> linarith
  refine ⟨h1, ?_, ?_, hsweep.1, hsweep.2, length_sample_angles _ _ 32, ?_, ?_⟩
  · intro h
    simp [arc_sweep, h]
  · intro h
    have h' := not_le.mpr h
    simp [arc_sweep, h']
  · intro i
    ring
  · exact sample_angles_pairwise _ _ 32 (by norm_num) hsweep.1

/-- Claim C6, counterexample to the claim as stated: an arc with
startAngle = 720° and endAngle = 0° (angles the converter accepts) gets
2·pi added, yet its sweep is −2·pi: negative — not in (0°, 360°] and not in
the increasing-angle direction. -/
theorem C6_cex :
    (arc_sweep 720 0).2 - (arc_sweep 720 0).1 = -2
    ∧ ¬(0 < (arc_sweep 720 0).2 - (arc_sweep 720 0).1) := by
  norm_num [arc_sweep]

/-- Claim C6, witness: the wrap-around arc 350° → 10°. -/
theorem C6_witness :
    0 < (arc_sweep 350 10).2 - (arc_sweep 350 10).1
    ∧ (arc_sweep 350 10).2 - (arc_sweep 350 10).1 ≤ 2
    ∧ (sample_angles (arc_sweep 350 10).1 (arc_sweep 350 10).2 32).Pairwise (· < ·) := by
  have h := C6_thm 350 10 (by norm_num) (by norm_num) (by norm_num) (by norm_num)
  exact ⟨h.2.2.2.1, h.2.2.2.2.1, h.2.2.2.2.2.2.2⟩

/-- Claim C7, confirmed.  Every Polygon feature a conversion emits (from a
closed polyline or a circle) carries exactly one ring whose first and last
coordinates are equal, given the 2·pi-periodicity of the trigonometric
collaborators. -/
theorem C7_thm (ctx : Ctx) (es : List Entity)
    (hcos : ctx.cosp 2 = ctx.cosp 0) (hsin : ctx.sinp 2 = ctx.sinp 0) :
    ((convert_dxf ctx es).features.all fun f => poly_ok f.geometry) = true := by
  unfold convert_dxf
  exact all_features_foldl ctx _ (fun e f h => poly_ok_of_emit ctx e f hcos hsin h) es
    init_result (by simp [init_result])

/-- Claim C7, witness: the theorem applied to the concrete context and a
closed polyline. -/
theorem C7_witness :
    ((convert_dxf ctx0 [ent_lw_closed2]).features.all fun f =>
      poly_ok f.geometry) = true :=
  C7_thm ctx0 [ent_lw_closed2] rfl rfl

/-- Claim C8, confirmed.  A DIMENSION entity whose definition-point
extraction fails is dropped with no feature and no counter change, while
the same failure on every other recognized kind increments `skippedCounts`
under that kind. -/
theorem C8_thm (ctx : Ctx) (m : EntityMeta) (o : ℚ × ℚ → ℚ × ℚ) :
    convert_dxf ctx [⟨m, o, .dimension none⟩] = ⟨[], [], 0⟩
    ∧ convert_dxf ctx [⟨m, o, .line none⟩] = ⟨[], [("LINE", 1)], 0⟩
    ∧ convert_dxf ctx [⟨m, o, .lwpolyline none⟩] = ⟨[], [("LWPOLYLINE", 1)], 0⟩
    ∧ convert_dxf ctx [⟨m, o, .polyline none⟩] = ⟨[], [("POLYLINE", 1)], 0⟩
    ∧ convert_dxf ctx [⟨m, o, .circle none⟩] = ⟨[], [("CIRCLE", 1)], 0⟩
    ∧ convert_dxf ctx [⟨m, o, .arc none⟩] = ⟨[], [("ARC", 1)], 0⟩
    ∧ convert_dxf ctx [⟨m, o, .point none⟩] = ⟨[], [("POINT", 1)], 0⟩
    ∧ convert_dxf ctx [⟨m, o, .text none⟩] = ⟨[], [("TEXT", 1)], 0⟩
    ∧ convert_dxf ctx [⟨m, o, .mtext none⟩] = ⟨[], [("MTEXT", 1)], 0⟩
    ∧ convert_dxf ctx [⟨m, o, .insert none⟩] = ⟨[], [("INSERT", 1)], 0⟩ :=
  ⟨rfl, rfl, rfl, rfl, rfl, rfl, rfl, rfl, rfl, rfl⟩

/-- Claim C9, confirmed.  A polyline with fewer than 2 vertices before any
plausibility filtering emits no feature and increments neither
`filteredCount` nor `skippedCounts`. -/
theorem C9_thm (ctx : Ctx) (m : EntityMeta) (o : ℚ × ℚ → ℚ × ℚ) :
    (∀ d : LwPolylineData, d.points.length < 2 →
      convert_dxf ctx [⟨m, o, .lwpolyline (some d)⟩] = ⟨[], [], 0⟩)
    ∧ (∀ d : PolylineData, d.vertices.length < 2 →
      convert_dxf ctx [⟨m, o, .polyline (some d)⟩] = ⟨[], [], 0⟩) := by
  constructor
  · intro d hd
    have hi : interpret ctx ⟨m, o, .lwpolyline (some d)⟩ = .silent := by
      simp only [interpret, interp_lwpolyline]
      rw [if_pos hd]
    rw [convert_dxf_singleton, step_of_silent _ _ hi]
    rfl
  · intro d hd
    have hi : interpret ctx ⟨m, o, .polyline (some d)⟩ = .silent := by
      simp only [interpret, interp_polyline]
      rw [if_pos (by rw [List.length_map]; exact hd)]
    rw [convert_dxf_singleton, step_of_silent _ _ hi]
    rfl

/-- Claim C9, witness: one-vertex LWPOLYLINE and POLYLINE entities vanish
from the result without touching any counter. -/
theorem C9_witness :
    convert_dxf ctx0 [⟨meta0, id, .lwpolyline (some ⟨[(300000, 3600000)], false⟩)⟩]
        = ⟨[], [], 0⟩
    ∧ convert_dxf ctx0 [⟨meta0, id, .polyline (some ⟨[(300000, 3600000)], false⟩)⟩]
        = ⟨[], [], 0⟩ :=
  ⟨(C9_thm ctx0 meta0 id).1 ⟨[(300000, 3600000)], false⟩ (by decide),
   (C9_thm ctx0 meta0 id).2 ⟨[(300000, 3600000)], false⟩ (by decide)⟩

/-- Claim C10, confirmed.  `arc_to_linestring` with segments = 32 always
returns exactly 33 points, so the fewer-than-2-points guard never fires:
every ARC whose center passes the plausibility check emits exactly one
LineString feature. -/
theorem C10_thm :
    (∀ (ctx : Ctx) (cx cy r sa ea : ℚ),
      (arc_to_linestring ctx cx cy r sa ea 32).length = 33)
    ∧ (∀ (ctx : Ctx) (m : EntityMeta) (o : ℚ × ℚ → ℚ × ℚ) (d : ArcData),
        in_utm_range (o d.center).1 (o d.center).2 = true →
        convert_dxf ctx [⟨m, o, .arc (some d)⟩] =
          ⟨[make_feature
              (.lineString (arc_to_linestring ctx (o d.center).1 (o d.center).2
                d.radius d.start_angle d.end_angle 32))
              (base_props ⟨m, o, .arc (some d)⟩)], [], 0⟩) := by
  constructor
  · intro ctx cx cy r sa ea
    rw [length_arc_to_linestring]
  · intro ctx m o d h
    have hi : interpret ctx ⟨m, o, .arc (some d)⟩ = .emit (make_feature
        (.lineString (arc_to_linestring ctx (o d.center).1 (o d.center).2
          d.radius d.start_angle d.end_angle 32))
        (base_props ⟨m, o, .arc (some d)⟩)) := by
      simp only [interpret, interp_arc, h, Bool.not_true]
      rw [if_neg (by simp), if_pos (by rw [length_arc_to_linestring]; norm_num)]
    rw [convert_dxf_singleton]
    unfold step
    rw [hi]
    rfl

/-- Claim C10, witness: a concrete plausible ARC emits exactly one
LineString feature. -/
theorem C10_witness :
    convert_dxf ctx0 [⟨meta0, id, .arc (some ⟨(400000, 3700000), 10, 0, 90⟩)⟩] =
      ⟨[make_feature
          (.lineString (arc_to_linestring ctx0 (id ((400000 : ℚ), (3700000 : ℚ))).1
            (id ((400000 : ℚ), (3700000 : ℚ))).2 10 0 90 32))
          (base_props ⟨meta0, id, .arc (some ⟨(400000, 3700000), 10, 0, 90⟩)⟩)], [], 0⟩ :=
  C10_thm.2 ctx0 meta0 id ⟨(400000, 3700000), 10, 0, 90⟩ (by decide)

end Aramaps
